import Mathlib

/-!
Verification development for the `build-instructions` crate.

The crate has three source files:
 - `src/core.rs`: the output sink `Out` (either live stdout or an in-memory
   byte buffer), the `Prefix` pairing a prefix string with a sink, and the
   lock/flush operations on the sink;
 - `src/raw.rs`: the raw directive formatter `Cargo`, whose `out!` macro
   performs lock, write prefix, write body plus newline, drop lock, flush;
 - `src/lib.rs`: the convenience layer `Cargo`, whose `rerun_if_changed`
   checks path existence under a `PathBehavior` policy and whose remaining
   operations are `todo!()` placeholders.

The embedding below models the sink state as a `Machine`: the prefix string,
the sink (`Out.stdout` or `Out.buffer data`), the stdout lock flag, a trace of
sink events (lock acquire/release, write attempts, flush attempts), and an
oracle (a list of booleans) deciding whether each fallible stdout I/O
operation succeeds.  Buffer writes are infallible, and lock/flush are no-ops
on a buffer, exactly as in `core.rs`.  Each Rust method taking `impl Display`
arguments is modelled on `String`; `Path::display` is the identity on the
modelled path string, and the filesystem existence query of `lib.rs` is a
parameter `fs : String → Bool`.
-/

namespace BuildInstructions

/-- Errors observable from an emission operation.  `sinkError` stands for any
I/O error produced by the sink itself (a failed stdout write or flush);
`notFound` is the `std::io::ErrorKind::NotFound` error synthesized by the
convenience layer's `MustExist` policy in `lib.rs`. -/
inductive IOError where
  | sinkError
  | notFound
deriving DecidableEq

/-- Events recorded against the sink: lock acquired, lock released, a write
attempt carrying the written string, and a flush attempt. -/
inductive Event where
  | acq
  | rel
  | wr (s : String)
  | fl
deriving DecidableEq

/-- Embeds `Out` from `core.rs`: either the live stdout stream or an in-memory
buffer.  For the buffer we keep its byte content as a string. -/
inductive Out where
  | stdout
  | buffer (data : String)
deriving DecidableEq

/-- The sink state: the `Prefix` of `core.rs` (prefix string plus `Out`,
the field `prefix` is a Lean keyword so it is named `prefixStr` here)
together with the stdout lock flag, the event trace, and the oracle of
outcomes for fallible stdout I/O operations (an exhausted oracle means
success). -/
structure Machine where
  prefixStr : String
  out : Out
  locked : Bool
  trace : List Event
  oracle : List Bool
deriving DecidableEq

/-- Embeds `Out::lock` from `core.rs`: on stdout it acquires the exclusive lock
(`StdoutLock`); on a buffer it returns an empty handle (`OutLock(None)`)
and changes nothing. -/
def lockAcquire (m : Machine) : Machine :=
  match m.out with
  | Out.stdout => { m with locked := true, trace := m.trace ++ [Event.acq] }
  | Out.buffer _ => m

/-- Dropping the `OutLock`: on stdout the lock is released; the empty buffer
handle releases nothing.  In Rust this runs on every exit path of the `out!`
macro, either at the explicit `drop(lock)` or at scope exit on a `?` early
return. -/
def lockRelease (m : Machine) : Machine :=
  match m.out with
  | Out.stdout => { m with locked := false, trace := m.trace ++ [Event.rel] }
  | Out.buffer _ => m

/-- A formatted write into the sink (`write!`/`writeln!` through
`impl Write for Out` in `core.rs`).  A write into the growable buffer always
succeeds and appends the bytes; a stdout write consumes one oracle entry and
fails with a sink error when that entry is `false`. -/
def writeStr (s : String) (m : Machine) : Except IOError Unit × Machine :=
  match m.out with
  | Out.buffer d =>
      (Except.ok (), { m with out := Out.buffer (d ++ s), trace := m.trace ++ [Event.wr s] })
  | Out.stdout =>
      match m.oracle with
      | [] => (Except.ok (), { m with trace := m.trace ++ [Event.wr s] })
      | b :: rest =>
          if b then
            (Except.ok (), { m with oracle := rest, trace := m.trace ++ [Event.wr s] })
          else
            (Except.error IOError.sinkError,
             { m with oracle := rest, trace := m.trace ++ [Event.wr s] })

/-- Embeds `Out::flush` from `core.rs`: a real (fallible) flush on stdout, a no-op
returning `Ok(())` on a buffer. -/
def flushOut (m : Machine) : Except IOError Unit × Machine :=
  match m.out with
  | Out.buffer _ => (Except.ok (), m)
  | Out.stdout =>
      match m.oracle with
      | [] => (Except.ok (), { m with trace := m.trace ++ [Event.fl] })
      | b :: rest =>
          if b then
            (Except.ok (), { m with oracle := rest, trace := m.trace ++ [Event.fl] })
          else
            (Except.error IOError.sinkError,
             { m with oracle := rest, trace := m.trace ++ [Event.fl] })

/-- The `out!` macro of `raw.rs`: acquire the lock, write the prefix, write
the body followed by one newline, drop the lock, flush.  A `?` early return
after a failed write still releases the lock (scope exit) but skips the
flush, exactly as in the Rust source. -/
def outEmit (body : String) (m : Machine) : Except IOError Unit × Machine :=
  let m1 := lockAcquire m
  match writeStr m1.prefixStr m1 with
  | (Except.error e, m2) => (Except.error e, lockRelease m2)
  | (Except.ok _, m2) =>
      match writeStr (body ++ "\n") m2 with
      | (Except.error e, m3) => (Except.error e, lockRelease m3)
      | (Except.ok _, m3) =>
          let m4 := lockRelease m3
          match flushOut m4 with
          | (Except.error e, m5) => (Except.error e, m5)
          | (Except.ok _, m5) => (Except.ok (), m5)

namespace Raw

/-- Embeds `raw::Cargo::rerun_if_changed` (`raw.rs`). -/
def rerun_if_changed (path : String) (m : Machine) : Except IOError Unit × Machine :=
  outEmit ("rerun-if-changed=" ++ path) m

/-- Embeds `raw::Cargo::rerun_if_env_changed` (`raw.rs`). -/
def rerun_if_env_changed (var : String) (m : Machine) : Except IOError Unit × Machine :=
  outEmit ("rerun-if-env-changed=" ++ var) m

/-- Embeds `raw::Cargo::rustc_link_arg` (`raw.rs`). -/
def rustc_link_arg (flag : String) (m : Machine) : Except IOError Unit × Machine :=
  outEmit ("rustc-link-arg=" ++ flag) m

/-- Embeds `raw::Cargo::rustc_link_arg_bin` (`raw.rs`). -/
def rustc_link_arg_bin (bin flag : String) (m : Machine) : Except IOError Unit × Machine :=
  outEmit ("rustc-link-arg-bin=" ++ bin ++ "=" ++ flag) m

/-- Embeds `raw::Cargo::rustc_link_arg_bins` (`raw.rs`). -/
def rustc_link_arg_bins (flag : String) (m : Machine) : Except IOError Unit × Machine :=
  outEmit ("rustc-link-arg-bins=" ++ flag) m

/-- Embeds `raw::Cargo::rustc_link_arg_tests` (`raw.rs`). -/
def rustc_link_arg_tests (flag : String) (m : Machine) : Except IOError Unit × Machine :=
  outEmit ("rustc-link-arg-tests=" ++ flag) m

/-- Embeds `raw::Cargo::rustc_link_arg_examples` (`raw.rs`). -/
def rustc_link_arg_examples (flag : String) (m : Machine) : Except IOError Unit × Machine :=
  outEmit ("rustc-link-arg-examples=" ++ flag) m

/-- Embeds `raw::Cargo::rustc_link_arg_benches` (`raw.rs`). -/
def rustc_link_arg_benches (flag : String) (m : Machine) : Except IOError Unit × Machine :=
  outEmit ("rustc-link-arg-benches=" ++ flag) m

/-- Embeds `raw::Cargo::rustc_link_lib` (`raw.rs`). -/
def rustc_link_lib (lib : String) (m : Machine) : Except IOError Unit × Machine :=
  outEmit ("rustc-link-lib=" ++ lib) m

/-- Embeds `raw::Cargo::rustc_link_search` (`raw.rs`): the kind segment is an
inline conditional branch on the `Option`. -/
def rustc_link_search (kind : Option String) (path : String) (m : Machine) :
    Except IOError Unit × Machine :=
  match kind with
  | some k => outEmit ("rustc-link-search=" ++ k ++ "=" ++ path) m
  | none => outEmit ("rustc-link-search=" ++ path) m

/-- Embeds `raw::Cargo::rustc_flags` (`raw.rs`). -/
def rustc_flags (flags : String) (m : Machine) : Except IOError Unit × Machine :=
  outEmit ("rustc-flags=" ++ flags) m

/-- Embeds `raw::Cargo::rustc_cfg` (`raw.rs`): the value segment is optional. -/
def rustc_cfg (key : String) (value : Option String) (m : Machine) :
    Except IOError Unit × Machine :=
  match value with
  | some v => outEmit ("rustc-cfg=" ++ key ++ "=" ++ v) m
  | none => outEmit ("rustc-cfg=" ++ key) m

/-- Embeds `raw::Cargo::rustc_env` (`raw.rs`). -/
def rustc_env (var value : String) (m : Machine) : Except IOError Unit × Machine :=
  outEmit ("rustc-env=" ++ var ++ "=" ++ value) m

/-- Embeds `raw::Cargo::rustc_cdylib_link_arg` (`raw.rs`). -/
def rustc_cdylib_link_arg (flag : String) (m : Machine) : Except IOError Unit × Machine :=
  outEmit ("rustc-cdylib-link-arg=" ++ flag) m

/-- Embeds `raw::Cargo::warning` (`raw.rs`). -/
def warning (message : String) (m : Machine) : Except IOError Unit × Machine :=
  outEmit ("warning=" ++ message) m

/-- Embeds `raw::Cargo::metadata` (`raw.rs`): no directive-name segment, the body
is the bare `key=value`. -/
def metadata (key value : String) (m : Machine) : Except IOError Unit × Machine :=
  outEmit (key ++ "=" ++ value) m

end Raw

/-- Embeds `PathBehavior` from `lib.rs`. -/
inductive PathBehavior where
  | OnlyIfExists
  | MustExist
  | Always
deriving DecidableEq

/-- Outcome of a convenience-layer call: the `Ok`/`Err` of the Rust
`io::Result`, or a panic (the Rust `todo!()` macro unwinds with the message
"not yet implemented"). -/
inductive ConvOutcome where
  | ok
  | err (e : IOError)
  | panicked (msg : String)
deriving DecidableEq

/-- Lift the `io::Result` of a raw call into a convenience-layer outcome
(raw calls never panic). -/
def liftResult : Except IOError Unit → ConvOutcome
  | Except.ok _ => ConvOutcome.ok
  | Except.error e => ConvOutcome.err e

namespace Conv

/-- Embeds `Cargo::rerun_if_changed` from `lib.rs`: checks `path.exists()` (the
parameter `fs`) and dispatches on the `PathBehavior`; `Always` emits without
consulting the check, `OnlyIfExists` silently succeeds on a missing path,
`MustExist` fails with `NotFound` on a missing path. -/
def rerun_if_changed (fs : String → Bool) (path : String) (behavior : PathBehavior)
    (m : Machine) : ConvOutcome × Machine :=
  match behavior, fs path with
  | PathBehavior.Always, _ =>
      let r := Raw.rerun_if_changed path m
      (liftResult r.1, r.2)
  | PathBehavior.OnlyIfExists, true =>
      let r := Raw.rerun_if_changed path m
      (liftResult r.1, r.2)
  | PathBehavior.OnlyIfExists, false => (ConvOutcome.ok, m)
  | PathBehavior.MustExist, true =>
      let r := Raw.rerun_if_changed path m
      (liftResult r.1, r.2)
  | PathBehavior.MustExist, false => (ConvOutcome.err IOError.notFound, m)

/-- Embeds `Cargo::rerun_if_env_changed` from `lib.rs`: the body is `todo!()`,
which panics with "not yet implemented" and writes nothing. -/
def rerun_if_env_changed (_var : String) (m : Machine) : ConvOutcome × Machine :=
  (ConvOutcome.panicked "not yet implemented", m)

/-- Embeds `Cargo::rustc_link_arg` from `lib.rs`: the body is `todo!()`. -/
def rustc_link_arg (_flag : String) (m : Machine) : ConvOutcome × Machine :=
  (ConvOutcome.panicked "not yet implemented", m)

/-- Embeds `Cargo::rustc_link_arg_bin` from `lib.rs`: the body is `todo!()`. -/
def rustc_link_arg_bin (_bin _flag : String) (m : Machine) : ConvOutcome × Machine :=
  (ConvOutcome.panicked "not yet implemented", m)

/-- Embeds `Cargo::rustc_link_arg_bins` from `lib.rs`: the body is `todo!()`. -/
def rustc_link_arg_bins (_flag : String) (m : Machine) : ConvOutcome × Machine :=
  (ConvOutcome.panicked "not yet implemented", m)

/-- Embeds `Cargo::rustc_link_arg_tests` from `lib.rs`: the body is `todo!()`. -/
def rustc_link_arg_tests (_flag : String) (m : Machine) : ConvOutcome × Machine :=
  (ConvOutcome.panicked "not yet implemented", m)

/-- Embeds `Cargo::rustc_link_arg_examples` from `lib.rs`: the body is `todo!()`. -/
def rustc_link_arg_examples (_flag : String) (m : Machine) : ConvOutcome × Machine :=
  (ConvOutcome.panicked "not yet implemented", m)

/-- Embeds `Cargo::rustc_link_arg_benches` from `lib.rs`: the body is `todo!()`. -/
def rustc_link_arg_benches (_flag : String) (m : Machine) : ConvOutcome × Machine :=
  (ConvOutcome.panicked "not yet implemented", m)

/-- Embeds `Cargo::rustc_link_lib` from `lib.rs`: the body is `todo!()`. -/
def rustc_link_lib (_lib : String) (m : Machine) : ConvOutcome × Machine :=
  (ConvOutcome.panicked "not yet implemented", m)

/-- Embeds `Cargo::rustc_link_search` from `lib.rs`: the body is `todo!()`. -/
def rustc_link_search (_kind : Option String) (_path : String) (m : Machine) :
    ConvOutcome × Machine :=
  (ConvOutcome.panicked "not yet implemented", m)

/-- Embeds `Cargo::rustc_flags` from `lib.rs`: the body is `todo!()`. -/
def rustc_flags (_flags : String) (m : Machine) : ConvOutcome × Machine :=
  (ConvOutcome.panicked "not yet implemented", m)

/-- Embeds `Cargo::rustc_cfg` from `lib.rs`: the body is `todo!()`. -/
def rustc_cfg (_key : String) (_value : Option String) (m : Machine) :
    ConvOutcome × Machine :=
  (ConvOutcome.panicked "not yet implemented", m)

/-- Embeds `Cargo::rustc_env` from `lib.rs`: the body is `todo!()`. -/
def rustc_env (_var _value : String) (m : Machine) : ConvOutcome × Machine :=
  (ConvOutcome.panicked "not yet implemented", m)

/-- Embeds `Cargo::rustc_cdylib_link_arg` from `lib.rs`: the body is `todo!()`. -/
def rustc_cdylib_link_arg (_flag : String) (m : Machine) : ConvOutcome × Machine :=
  (ConvOutcome.panicked "not yet implemented", m)

/-- Embeds `Cargo::warning` from `lib.rs`: the body is `todo!()`. -/
def warning (_message : String) (m : Machine) : ConvOutcome × Machine :=
  (ConvOutcome.panicked "not yet implemented", m)

/-- Embeds `Cargo::metadata` from `lib.rs`: the body is `todo!()`. -/
def metadata (_key _value : String) (m : Machine) : ConvOutcome × Machine :=
  (ConvOutcome.panicked "not yet implemented", m)

end Conv

/-- A machine over a captured (buffer) sink, as built by the test helper
`cargo_buffer` of the crate, generalised to an arbitrary prefix and initial
buffer content. -/
def bufMachine (pre d : String) (lk : Bool) (tr : List Event) (ol : List Bool) : Machine :=
  Machine.mk pre (Out.buffer d) lk tr ol

/-- The buffer machine of the crate's own tests: prefix `cargo:`, empty
buffer. -/
def M0 : Machine := bufMachine "cargo:" "" false [] []

/-- A stdout machine whose first I/O operation fails. -/
def M9 : Machine := Machine.mk "cargo:" Out.stdout false [] [false]

/-- One `out!` emission on a buffer machine: it succeeds, appends exactly
`prefix ++ body ++ "\n"` to the buffer, records the two write events, and
touches nothing else. -/
theorem outEmit_buffer (body pre d : String) (lk : Bool) (tr : List Event) (ol : List Bool) :
    outEmit body (Machine.mk pre (Out.buffer d) lk tr ol) =
      (Except.ok (),
       Machine.mk pre (Out.buffer ((d ++ pre) ++ (body ++ "\n"))) lk
         (tr ++ [Event.wr pre, Event.wr (body ++ "\n")]) ol) := by
  simp [outEmit, lockAcquire, lockRelease, writeStr, flushOut]

/-- Full case analysis of one `out!` emission on a stdout machine, by the
shape of the I/O oracle: the lock is released on every exit path, the sink
and prefix are untouched, the only error is a sink error, a success records
acquire, the two writes, release, then flush (in that order), and an error
exit records one of the three failure traces (prefix write failed, body
write failed, flush failed) — the first two without any flush attempt. -/
theorem outEmit_stdout_spec (body pre : String) (lk : Bool) (tr : List Event) (ol : List Bool) :
    (outEmit body (Machine.mk pre Out.stdout lk tr ol)).2.locked = false ∧
    (outEmit body (Machine.mk pre Out.stdout lk tr ol)).2.out = Out.stdout ∧
    (outEmit body (Machine.mk pre Out.stdout lk tr ol)).2.prefixStr = pre ∧
    ((outEmit body (Machine.mk pre Out.stdout lk tr ol)).1 = Except.ok () →
      (outEmit body (Machine.mk pre Out.stdout lk tr ol)).2.trace =
        tr ++ [Event.acq, Event.wr pre, Event.wr (body ++ "\n"), Event.rel, Event.fl]) ∧
    (∀ e, (outEmit body (Machine.mk pre Out.stdout lk tr ol)).1 = Except.error e →
      e = IOError.sinkError ∧
      ((outEmit body (Machine.mk pre Out.stdout lk tr ol)).2.trace =
          tr ++ [Event.acq, Event.wr pre, Event.rel] ∨
       (outEmit body (Machine.mk pre Out.stdout lk tr ol)).2.trace =
          tr ++ [Event.acq, Event.wr pre, Event.wr (body ++ "\n"), Event.rel] ∨
       (outEmit body (Machine.mk pre Out.stdout lk tr ol)).2.trace =
          tr ++ [Event.acq, Event.wr pre, Event.wr (body ++ "\n"), Event.rel, Event.fl])) := by
  rcases ol with _ | ⟨_ | _, _ | ⟨_ | _, _ | ⟨_ | _, rest⟩⟩⟩ <;>
    simp [outEmit, lockAcquire, lockRelease, writeStr, flushOut]

/-- An error surfaced by `out!` is always a sink error, never a synthesized
error: the raw layer performs no input validation. -/
theorem outEmit_error_kind (body : String) (m : Machine) (e : IOError)
    (h : (outEmit body m).1 = Except.error e) : e = IOError.sinkError := by
  rcases m with ⟨pre, o, lk, tr, ol⟩
  cases o with
  | buffer d =>
      rw [outEmit_buffer] at h
      exact absurd h (by simp)
  | stdout =>
      exact ((outEmit_stdout_spec body pre lk tr ol).2.2.2.2 e h).1

/-- C1: for every directive kind taking a single required value `v`
(`rerun_if_changed`, `rerun_if_env_changed`, `rustc_link_arg`,
`rustc_link_arg_bins`, `rustc_link_arg_tests`, `rustc_link_arg_examples`,
`rustc_link_arg_benches`, `rustc_link_lib`, `rustc_flags`, `rustc_env` with
both arguments, `rustc_cdylib_link_arg`, `warning`), a successful call on a
captured-buffer sink appends exactly `prefix ++ name ++ "=" ++ v ++ "\n"` to
the buffer and nothing else. -/
theorem c1_single_value_directives (pre v w d : String) (lk : Bool) (tr : List Event)
    (ol : List Bool) :
    (Raw.rerun_if_changed v (bufMachine pre d lk tr ol)).1 = Except.ok () ∧
    (Raw.rerun_if_changed v (bufMachine pre d lk tr ol)).2.out =
      Out.buffer (d ++ pre ++ "rerun-if-changed" ++ "=" ++ v ++ "\n") ∧
    (Raw.rerun_if_env_changed v (bufMachine pre d lk tr ol)).1 = Except.ok () ∧
    (Raw.rerun_if_env_changed v (bufMachine pre d lk tr ol)).2.out =
      Out.buffer (d ++ pre ++ "rerun-if-env-changed" ++ "=" ++ v ++ "\n") ∧
    (Raw.rustc_link_arg v (bufMachine pre d lk tr ol)).1 = Except.ok () ∧
    (Raw.rustc_link_arg v (bufMachine pre d lk tr ol)).2.out =
      Out.buffer (d ++ pre ++ "rustc-link-arg" ++ "=" ++ v ++ "\n") ∧
    (Raw.rustc_link_arg_bins v (bufMachine pre d lk tr ol)).1 = Except.ok () ∧
    (Raw.rustc_link_arg_bins v (bufMachine pre d lk tr ol)).2.out =
      Out.buffer (d ++ pre ++ "rustc-link-arg-bins" ++ "=" ++ v ++ "\n") ∧
    (Raw.rustc_link_arg_tests v (bufMachine pre d lk tr ol)).1 = Except.ok () ∧
    (Raw.rustc_link_arg_tests v (bufMachine pre d lk tr ol)).2.out =
      Out.buffer (d ++ pre ++ "rustc-link-arg-tests" ++ "=" ++ v ++ "\n") ∧
    (Raw.rustc_link_arg_examples v (bufMachine pre d lk tr ol)).1 = Except.ok () ∧
    (Raw.rustc_link_arg_examples v (bufMachine pre d lk tr ol)).2.out =
      Out.buffer (d ++ pre ++ "rustc-link-arg-examples" ++ "=" ++ v ++ "\n") ∧
    (Raw.rustc_link_arg_benches v (bufMachine pre d lk tr ol)).1 = Except.ok () ∧
    (Raw.rustc_link_arg_benches v (bufMachine pre d lk tr ol)).2.out =
      Out.buffer (d ++ pre ++ "rustc-link-arg-benches" ++ "=" ++ v ++ "\n") ∧
    (Raw.rustc_link_lib v (bufMachine pre d lk tr ol)).1 = Except.ok () ∧
    (Raw.rustc_link_lib v (bufMachine pre d lk tr ol)).2.out =
      Out.buffer (d ++ pre ++ "rustc-link-lib" ++ "=" ++ v ++ "\n") ∧
    (Raw.rustc_flags v (bufMachine pre d lk tr ol)).1 = Except.ok () ∧
    (Raw.rustc_flags v (bufMachine pre d lk tr ol)).2.out =
      Out.buffer (d ++ pre ++ "rustc-flags" ++ "=" ++ v ++ "\n") ∧
    (Raw.rustc_env v w (bufMachine pre d lk tr ol)).1 = Except.ok () ∧
    (Raw.rustc_env v w (bufMachine pre d lk tr ol)).2.out =
      Out.buffer (d ++ pre ++ "rustc-env" ++ "=" ++ v ++ "=" ++ w ++ "\n") ∧
    (Raw.rustc_cdylib_link_arg v (bufMachine pre d lk tr ol)).1 = Except.ok () ∧
    (Raw.rustc_cdylib_link_arg v (bufMachine pre d lk tr ol)).2.out =
      Out.buffer (d ++ pre ++ "rustc-cdylib-link-arg" ++ "=" ++ v ++ "\n") ∧
    (Raw.warning v (bufMachine pre d lk tr ol)).1 = Except.ok () ∧
    (Raw.warning v (bufMachine pre d lk tr ol)).2.out =
      Out.buffer (d ++ pre ++ "warning" ++ "=" ++ v ++ "\n") := by
  simp [Raw.rerun_if_changed, Raw.rerun_if_env_changed, Raw.rustc_link_arg,
    Raw.rustc_link_arg_bins, Raw.rustc_link_arg_tests, Raw.rustc_link_arg_examples,
    Raw.rustc_link_arg_benches, Raw.rustc_link_lib, Raw.rustc_flags, Raw.rustc_env,
    Raw.rustc_cdylib_link_arg, Raw.warning, outEmit_buffer, bufMachine,
    String.append_assoc]

/-- The single line an emission with body `body` is expected to produce under
the given prefix: `prefix ++ body ++ "\n"`. -/
def lineFor (pre body : String) : String := pre ++ body ++ "\n"

/-- The concatenation, in call order, of the expected lines of a sequence of
emission bodies. -/
def linesFor (pre : String) (bodies : List String) : String :=
  match bodies with
  | [] => ""
  | b :: rest => lineFor pre b ++ linesFor pre rest

/-- Run one `out!` emission per body, in order, threading the sink state. -/
def emitAll (bodies : List String) (m : Machine) : Machine :=
  match bodies with
  | [] => m
  | b :: rest => emitAll rest (outEmit b m).2

/-- Running a sequence of emissions on a buffer machine appends exactly the
concatenation of the expected lines, in call order. -/
theorem emitAll_buffer (bodies : List String) (pre d : String) (lk : Bool) (tr : List Event)
    (ol : List Bool) :
    ∃ tr2, emitAll bodies (Machine.mk pre (Out.buffer d) lk tr ol) =
      Machine.mk pre (Out.buffer (d ++ linesFor pre bodies)) lk tr2 ol := by
  induction bodies generalizing d tr with
  | nil => exact ⟨tr, by simp [emitAll, linesFor]⟩
  | cons b rest ih =>
      obtain ⟨tr2, h2⟩ := ih ((d ++ pre) ++ (b ++ "\n"))
        (tr ++ [Event.wr pre, Event.wr (b ++ "\n")])
      refine ⟨tr2, ?_⟩
      rw [emitAll, outEmit_buffer]
      rw [show (Except.ok (),
        Machine.mk pre (Out.buffer ((d ++ pre) ++ (b ++ "\n"))) lk
          (tr ++ [Event.wr pre, Event.wr (b ++ "\n")]) ol).2 =
        Machine.mk pre (Out.buffer ((d ++ pre) ++ (b ++ "\n"))) lk
          (tr ++ [Event.wr pre, Event.wr (b ++ "\n")]) ol from rfl]
      rw [h2]
      simp [linesFor, lineFor, String.append_assoc]

/-- C2: every successful emission appends exactly one newline-terminated line
`prefix ++ body ++ "\n"` to a captured sink, leaving all previously written
bytes unchanged, and a sequence of N emissions yields the concatenation of
each call's single expected line, in call order. -/
theorem c2_one_line_per_emission (pre body d : String) (lk : Bool) (tr : List Event)
    (ol : List Bool) (bodies : List String) :
    (outEmit body (Machine.mk pre (Out.buffer d) lk tr ol)).1 = Except.ok () ∧
    (outEmit body (Machine.mk pre (Out.buffer d) lk tr ol)).2.out =
      Out.buffer (d ++ lineFor pre body) ∧
    (emitAll bodies (Machine.mk pre (Out.buffer d) lk tr ol)).out =
      Out.buffer (d ++ linesFor pre bodies) := by
  obtain ⟨tr2, h2⟩ := emitAll_buffer bodies pre d lk tr ol
  refine ⟨?_, ?_, ?_⟩
  · rw [outEmit_buffer]
  · rw [outEmit_buffer]
    simp [lineFor, String.append_assoc]
  · rw [h2]

/-- C3: the convenience-layer `rerun_if_changed` under the path-existence
policy: `MustExist` on a nonexistent path writes nothing and returns the
not-found error; `OnlyIfExists` on a nonexistent path writes nothing and
succeeds; `Always` delegates to the raw formatter regardless of existence
(and on a captured sink emits exactly the `rerun-if-changed` line and
succeeds); `MustExist` and `OnlyIfExists` on an existing path produce
exactly the raw formatter's result and sink state. -/
theorem c3_path_policy (fs : String → Bool) (path pre d : String) (lk : Bool)
    (tr : List Event) (ol : List Bool) (m : Machine) :
    (fs path = false →
      Conv.rerun_if_changed fs path PathBehavior.MustExist m =
        (ConvOutcome.err IOError.notFound, m)) ∧
    (fs path = false →
      Conv.rerun_if_changed fs path PathBehavior.OnlyIfExists m = (ConvOutcome.ok, m)) ∧
    (Conv.rerun_if_changed fs path PathBehavior.Always m =
      (liftResult (Raw.rerun_if_changed path m).1, (Raw.rerun_if_changed path m).2)) ∧
    ((Conv.rerun_if_changed fs path PathBehavior.Always
        (Machine.mk pre (Out.buffer d) lk tr ol)).1 = ConvOutcome.ok ∧
     (Conv.rerun_if_changed fs path PathBehavior.Always
        (Machine.mk pre (Out.buffer d) lk tr ol)).2.out =
       Out.buffer (d ++ pre ++ "rerun-if-changed" ++ "=" ++ path ++ "\n")) ∧
    (fs path = true →
      Conv.rerun_if_changed fs path PathBehavior.MustExist m =
        (liftResult (Raw.rerun_if_changed path m).1, (Raw.rerun_if_changed path m).2)) ∧
    (fs path = true →
      Conv.rerun_if_changed fs path PathBehavior.OnlyIfExists m =
        (liftResult (Raw.rerun_if_changed path m).1, (Raw.rerun_if_changed path m).2)) := by
  refine ⟨fun h => ?_, fun h => ?_, ?_, ⟨?_, ?_⟩, fun h => ?_, fun h => ?_⟩ <;>
    simp [Conv.rerun_if_changed, Raw.rerun_if_changed, liftResult, outEmit_buffer,
      String.append_assoc] <;>
    simp [h]

/-- C3 witness: the policy branches at concrete inputs — a missing path under
`MustExist` fails with not-found and leaves the buffer untouched, and an
existing path under `MustExist` coincides with the raw formatter call. -/
theorem c3_path_policy_witness :
    Conv.rerun_if_changed (fun _ => false) "missing.txt" PathBehavior.MustExist M0 =
      (ConvOutcome.err IOError.notFound, M0) ∧
    Conv.rerun_if_changed (fun _ => true) "build.rs" PathBehavior.MustExist M0 =
      (liftResult (Raw.rerun_if_changed "build.rs" M0).1,
       (Raw.rerun_if_changed "build.rs" M0).2) :=
  ⟨(c3_path_policy (fun _ => false) "missing.txt" "cargo:" "" false [] [] M0).1 rfl,
   ((c3_path_policy (fun _ => true) "build.rs" "cargo:" "" false [] [] M0).2.2.2.2.1) rfl⟩

/-- C4 counterexample: the convenience-layer `metadata` does not behave like
the raw formatter's `metadata` — on the crate's own captured-buffer
configuration it panics (the body is `todo!()`) and writes nothing, while
the raw call succeeds and appends `cargo:asdf=hjkl\n`. -/
theorem c4_pass_through_counterexample :
    ¬ (Conv.metadata "asdf" "hjkl" M0 =
        (liftResult (Raw.metadata "asdf" "hjkl" M0).1, (Raw.metadata "asdf" "hjkl" M0).2)) := by
  decide

/-- C4 (amended): every convenience-layer operation other than
`rerun_if_changed` is an unimplemented placeholder — its body is `todo!()`,
so every call panics with "not yet implemented" and leaves the sink state
completely unchanged, instead of delegating to the raw formatter.  (The
spec itself notes these are placeholders whose intended behavior is a
direct pass-through.) -/
theorem c4_placeholders_panic (v w : String) (kOpt : Option String) (m : Machine) :
    Conv.rerun_if_env_changed v m = (ConvOutcome.panicked "not yet implemented", m) ∧
    Conv.rustc_link_arg v m = (ConvOutcome.panicked "not yet implemented", m) ∧
    Conv.rustc_link_arg_bin v w m = (ConvOutcome.panicked "not yet implemented", m) ∧
    Conv.rustc_link_arg_bins v m = (ConvOutcome.panicked "not yet implemented", m) ∧
    Conv.rustc_link_arg_tests v m = (ConvOutcome.panicked "not yet implemented", m) ∧
    Conv.rustc_link_arg_examples v m = (ConvOutcome.panicked "not yet implemented", m) ∧
    Conv.rustc_link_arg_benches v m = (ConvOutcome.panicked "not yet implemented", m) ∧
    Conv.rustc_link_lib v m = (ConvOutcome.panicked "not yet implemented", m) ∧
    Conv.rustc_link_search kOpt v m = (ConvOutcome.panicked "not yet implemented", m) ∧
    Conv.rustc_flags v m = (ConvOutcome.panicked "not yet implemented", m) ∧
    Conv.rustc_cfg v kOpt m = (ConvOutcome.panicked "not yet implemented", m) ∧
    Conv.rustc_env v w m = (ConvOutcome.panicked "not yet implemented", m) ∧
    Conv.rustc_cdylib_link_arg v m = (ConvOutcome.panicked "not yet implemented", m) ∧
    Conv.warning v m = (ConvOutcome.panicked "not yet implemented", m) ∧
    Conv.metadata v w m = (ConvOutcome.panicked "not yet implemented", m) :=
  ⟨rfl, rfl, rfl, rfl, rfl, rfl, rfl, rfl, rfl, rfl, rfl, rfl, rfl, rfl, rfl⟩

/-- C5: the optional-value directives: `rustc_link_search` without a kind
emits `rustc-link-search=path`, with a kind it emits
`rustc-link-search=kind=path`; `rustc_cfg` without a value emits
`rustc-cfg=key` with no trailing equals sign, with a value it emits
`rustc-cfg=key=value`. -/
theorem c5_optional_value_directives (pre k v d : String) (lk : Bool) (tr : List Event)
    (ol : List Bool) :
    (Raw.rustc_link_search Option.none v (Machine.mk pre (Out.buffer d) lk tr ol)).1 =
      Except.ok () ∧
    (Raw.rustc_link_search Option.none v (Machine.mk pre (Out.buffer d) lk tr ol)).2.out =
      Out.buffer (d ++ pre ++ "rustc-link-search" ++ "=" ++ v ++ "\n") ∧
    (Raw.rustc_link_search (Option.some k) v (Machine.mk pre (Out.buffer d) lk tr ol)).1 =
      Except.ok () ∧
    (Raw.rustc_link_search (Option.some k) v (Machine.mk pre (Out.buffer d) lk tr ol)).2.out =
      Out.buffer (d ++ pre ++ "rustc-link-search" ++ "=" ++ k ++ "=" ++ v ++ "\n") ∧
    (Raw.rustc_cfg k Option.none (Machine.mk pre (Out.buffer d) lk tr ol)).1 =
      Except.ok () ∧
    (Raw.rustc_cfg k Option.none (Machine.mk pre (Out.buffer d) lk tr ol)).2.out =
      Out.buffer (d ++ pre ++ "rustc-cfg" ++ "=" ++ k ++ "\n") ∧
    (Raw.rustc_cfg k (Option.some v) (Machine.mk pre (Out.buffer d) lk tr ol)).1 =
      Except.ok () ∧
    (Raw.rustc_cfg k (Option.some v) (Machine.mk pre (Out.buffer d) lk tr ol)).2.out =
      Out.buffer (d ++ pre ++ "rustc-cfg" ++ "=" ++ k ++ "=" ++ v ++ "\n") := by
  simp [Raw.rustc_link_search, Raw.rustc_cfg, outEmit_buffer, String.append_assoc]

/-- C6: the targeted link-arg form `rustc_link_arg_bin` with target `T` and
flag `F` emits exactly `prefix ++ "rustc-link-arg-bin" ++ "=" ++ T ++ "=" ++
F ++ "\n"`; holding `F` fixed and changing `T` changes only the middle
segment, holding `T` fixed and changing `F` changes only the trailing
segment (the surrounding segments appear verbatim in the equation). -/
theorem c6_targeted_link_arg (pre t f d : String) (lk : Bool) (tr : List Event)
    (ol : List Bool) :
    (Raw.rustc_link_arg_bin t f (Machine.mk pre (Out.buffer d) lk tr ol)).1 =
      Except.ok () ∧
    (Raw.rustc_link_arg_bin t f (Machine.mk pre (Out.buffer d) lk tr ol)).2.out =
      Out.buffer ((d ++ pre ++ "rustc-link-arg-bin" ++ "=") ++ t ++ ("=" ++ f ++ "\n")) := by
  simp [Raw.rustc_link_arg_bin, outEmit_buffer, String.append_assoc]

/-- C7: `metadata key value` emits exactly `prefix ++ key ++ "=" ++ value ++
"\n"` with no directive-name segment between the prefix and the key; on the
crate's own test configuration, `metadata "asdf" "hjkl"` with prefix
`cargo:` yields literally `cargo:asdf=hjkl\n`. -/
theorem c7_metadata_bare (pre k v d : String) (lk : Bool) (tr : List Event)
    (ol : List Bool) :
    (Raw.metadata k v (Machine.mk pre (Out.buffer d) lk tr ol)).1 = Except.ok () ∧
    (Raw.metadata k v (Machine.mk pre (Out.buffer d) lk tr ol)).2.out =
      Out.buffer (d ++ pre ++ k ++ "=" ++ v ++ "\n") ∧
    (Raw.metadata "asdf" "hjkl" M0).2.out = Out.buffer "cargo:asdf=hjkl\n" := by
  refine ⟨?_, ?_, by decide⟩ <;>
    simp [Raw.metadata, outEmit_buffer, String.append_assoc]

/-- C8: no emission operation ever returns a validation error: the only
failure an emission can surface is the sink's own I/O error (never the
not-found kind, which only the convenience layer synthesizes), and a value
containing a line terminator or equals sign is written as-is — `warning`
with an arbitrary value `v` (newlines included) appends the unescaped
`prefix ++ "warning" ++ "=" ++ v ++ "\n"`. -/
theorem c8_no_validation (body v pre d : String) (lk : Bool) (tr : List Event)
    (ol : List Bool) (m : Machine) (e : IOError) :
    ((outEmit body m).1 = Except.error e → e = IOError.sinkError) ∧
    ((Raw.rerun_if_changed v m).1 = Except.error e → e = IOError.sinkError) ∧
    ((Raw.rustc_env v v m).1 = Except.error e → e = IOError.sinkError) ∧
    (Raw.warning v (Machine.mk pre (Out.buffer d) lk tr ol)).1 = Except.ok () ∧
    (Raw.warning v (Machine.mk pre (Out.buffer d) lk tr ol)).2.out =
      Out.buffer (d ++ pre ++ "warning" ++ "=" ++ v ++ "\n") := by
  refine ⟨fun h => outEmit_error_kind body m e h,
    fun h => outEmit_error_kind ("rerun-if-changed=" ++ v) m e h,
    fun h => outEmit_error_kind ("rustc-env=" ++ v ++ "=" ++ v) m e h, ?_, ?_⟩ <;>
    simp [Raw.warning, outEmit_buffer, String.append_assoc]

/-- C8 witness: the hypotheses are satisfiable — on a stdout machine whose
first write fails the emission returns the sink error, and a value with an
embedded newline is still emitted verbatim on a buffer machine. -/
theorem c8_no_validation_witness :
    IOError.sinkError = IOError.sinkError ∧
    (Raw.warning "two\nlines" M0).1 = Except.ok () :=
  ⟨(c8_no_validation "x" "two\nlines" "cargo:" "" false [] [] M9 IOError.sinkError).1
      (by rfl),
   (c8_no_validation "x" "two\nlines" "cargo:" "" false [] [] M9 IOError.sinkError).2.2.2.1⟩

/-- C9 counterexample: on a stdout machine whose first write fails, the
emission takes an error exit on which the sink is never flushed — no flush
event appears in the trace — refuting the claim that every exit path flushes
the sink before returning. -/
theorem c9_flush_counterexample :
    (Raw.rerun_if_changed "build.rs" M9).1 = Except.error IOError.sinkError ∧
    ¬ Event.fl ∈ (Raw.rerun_if_changed "build.rs" M9).2.trace :=
  ⟨rfl, by decide⟩

/-- C9 (amended): on every exit path of an emission the exclusive lock is
released before the operation returns (on error exits via scope exit); the
flush runs after the release but only on the path where both writes
succeeded — a success records acquire, the two writes, release, then flush,
while an error exit is a sink error recording one of the three failure
traces, of which the two write-failure traces contain no flush event. -/
theorem c9_release_then_flush (body pre : String) (lk : Bool) (tr : List Event)
    (ol : List Bool) :
    (outEmit body (Machine.mk pre Out.stdout lk tr ol)).2.locked = false ∧
    ((outEmit body (Machine.mk pre Out.stdout lk tr ol)).1 = Except.ok () →
      (outEmit body (Machine.mk pre Out.stdout lk tr ol)).2.trace =
        tr ++ [Event.acq, Event.wr pre, Event.wr (body ++ "\n"), Event.rel, Event.fl]) ∧
    (∀ e, (outEmit body (Machine.mk pre Out.stdout lk tr ol)).1 = Except.error e →
      e = IOError.sinkError ∧
      ((outEmit body (Machine.mk pre Out.stdout lk tr ol)).2.trace =
          tr ++ [Event.acq, Event.wr pre, Event.rel] ∨
       (outEmit body (Machine.mk pre Out.stdout lk tr ol)).2.trace =
          tr ++ [Event.acq, Event.wr pre, Event.wr (body ++ "\n"), Event.rel] ∨
       (outEmit body (Machine.mk pre Out.stdout lk tr ol)).2.trace =
          tr ++ [Event.acq, Event.wr pre, Event.wr (body ++ "\n"), Event.rel, Event.fl])) := by
  obtain ⟨h1, _, _, h4, h5⟩ := outEmit_stdout_spec body pre lk tr ol
  exact ⟨h1, h4, h5⟩

/-- C9 witness: on a stdout machine with an all-success oracle the emission
succeeds with the full acquire-write-write-release-flush trace, and on a
first-write-failure oracle the lock still ends released. -/
theorem c9_release_then_flush_witness :
    (outEmit "warning=teapot" (Machine.mk "cargo:" Out.stdout false [] [])).2.trace =
      [] ++ [Event.acq, Event.wr "cargo:", Event.wr ("warning=teapot" ++ "\n"),
        Event.rel, Event.fl] ∧
    (outEmit "warning=teapot" M9).2.locked = false ∧
    IOError.sinkError = IOError.sinkError :=
  ⟨(c9_release_then_flush "warning=teapot" "cargo:" false [] []).2.1 (by rfl),
   (c9_release_then_flush "warning=teapot" "cargo:" false [] [false]).1,
   ((c9_release_then_flush "warning=teapot" "cargo:" false [] [false]).2.2
      IOError.sinkError (by rfl)).1⟩

/-- C10: with a captured (buffer) sink every raw formatter operation returns
success for every input — buffer writes cannot fail, locking is a no-op
leaving the machine unchanged, and flushing a buffer returns `Ok` without
touching the machine — so no I/O failure is reachable with a captured
sink. -/
theorem c10_buffer_never_fails (pre d v w : String) (kOpt : Option String) (lk : Bool)
    (tr : List Event) (ol : List Bool) :
    (Raw.rerun_if_changed v (Machine.mk pre (Out.buffer d) lk tr ol)).1 = Except.ok () ∧
    (Raw.rerun_if_env_changed v (Machine.mk pre (Out.buffer d) lk tr ol)).1 = Except.ok () ∧
    (Raw.rustc_link_arg v (Machine.mk pre (Out.buffer d) lk tr ol)).1 = Except.ok () ∧
    (Raw.rustc_link_arg_bin v w (Machine.mk pre (Out.buffer d) lk tr ol)).1 = Except.ok () ∧
    (Raw.rustc_link_arg_bins v (Machine.mk pre (Out.buffer d) lk tr ol)).1 = Except.ok () ∧
    (Raw.rustc_link_arg_tests v (Machine.mk pre (Out.buffer d) lk tr ol)).1 = Except.ok () ∧
    (Raw.rustc_link_arg_examples v (Machine.mk pre (Out.buffer d) lk tr ol)).1 =
      Except.ok () ∧
    (Raw.rustc_link_arg_benches v (Machine.mk pre (Out.buffer d) lk tr ol)).1 =
      Except.ok () ∧
    (Raw.rustc_link_lib v (Machine.mk pre (Out.buffer d) lk tr ol)).1 = Except.ok () ∧
    (Raw.rustc_link_search kOpt v (Machine.mk pre (Out.buffer d) lk tr ol)).1 =
      Except.ok () ∧
    (Raw.rustc_flags v (Machine.mk pre (Out.buffer d) lk tr ol)).1 = Except.ok () ∧
    (Raw.rustc_cfg v kOpt (Machine.mk pre (Out.buffer d) lk tr ol)).1 = Except.ok () ∧
    (Raw.rustc_env v w (Machine.mk pre (Out.buffer d) lk tr ol)).1 = Except.ok () ∧
    (Raw.rustc_cdylib_link_arg v (Machine.mk pre (Out.buffer d) lk tr ol)).1 =
      Except.ok () ∧
    (Raw.warning v (Machine.mk pre (Out.buffer d) lk tr ol)).1 = Except.ok () ∧
    (Raw.metadata v w (Machine.mk pre (Out.buffer d) lk tr ol)).1 = Except.ok () ∧
    lockAcquire (Machine.mk pre (Out.buffer d) lk tr ol) =
      Machine.mk pre (Out.buffer d) lk tr ol ∧
    lockRelease (Machine.mk pre (Out.buffer d) lk tr ol) =
      Machine.mk pre (Out.buffer d) lk tr ol ∧
    flushOut (Machine.mk pre (Out.buffer d) lk tr ol) =
      (Except.ok (), Machine.mk pre (Out.buffer d) lk tr ol) := by
  rcases kOpt with _ | k <;>
    simp [Raw.rerun_if_changed, Raw.rerun_if_env_changed, Raw.rustc_link_arg,
      Raw.rustc_link_arg_bin, Raw.rustc_link_arg_bins, Raw.rustc_link_arg_tests,
      Raw.rustc_link_arg_examples, Raw.rustc_link_arg_benches, Raw.rustc_link_lib,
      Raw.rustc_link_search, Raw.rustc_flags, Raw.rustc_cfg, Raw.rustc_env,
      Raw.rustc_cdylib_link_arg, Raw.warning, Raw.metadata, outEmit_buffer,
      lockAcquire, lockRelease, flushOut]

end BuildInstructions
